import Mathlib

/-!
Verification of the hh.ru auto-response script (`main.py`).

The script drives a browser through a third-party automation library; here
its decision logic is shallowly embedded in Lean.  Pure text processing
(`_parse_int`, vacancy-id extraction) is translated directly on `String` /
`List Char`.  Browser-facing functions are modelled as functions over
explicit oracles: a `PageState` records the DOM signals a polling round
observes, environment structures record whether each driver primitive
succeeds or raises, raising is an `Except.error`, and page-affecting
operations are logged in a trace of `Effect`s.
-/

/-! ### Text extraction helper (`_parse_int`, main.py lines 20-25) -/

/-- The non-breaking space character U+00A0 (`"\xa0"` in the source). -/
def nbspChar : Char := Char.ofNat 0xA0

/-- One character of `text.replace("\xa0", " ")`. -/
def nbspToSpace (c : Char) : Char := if c = nbspChar then ' ' else c

/-- `text.replace("\xa0", " ")` on the underlying character list. -/
def normalizeNbsp (t : String) : String := ⟨t.data.map nbspToSpace⟩

/-- Decimal value of a digit run, as computed by Python `int` on the
matched group (left fold, so leading zeros are harmless). -/
def digitsToNat (l : List Char) : Nat :=
  l.foldl (fun n c => 10 * n + (c.toNat - 48)) 0

/-- `re.search(r"(\d+)", text)`: the leftmost maximal run of decimal
digits, or `none` when the text has no digit. -/
def firstDigitRun : List Char → Option (List Char)
  | [] => none
  | c :: cs =>
    if c.isDigit then some (c :: cs.takeWhile Char.isDigit)
    else firstDigitRun cs

/-- `_parse_int` from main.py: empty text gives `None`; otherwise NBSPs are
replaced by spaces and the first digit run, if any, is converted to an
integer. -/
def parse_int (text : String) : Option Nat :=
  if text = "" then none
  else (firstDigitRun (normalizeNbsp text).data).map digitsToNat

/-- Spec-side phrasing of "the first run of digits": drop the longest
digit-free prefix; if nothing remains there is no run, otherwise the run is
the maximal digit prefix of the remainder. -/
def specFirstRun (l : List Char) : Option (List Char) :=
  let rest := l.dropWhile (fun c => !c.isDigit)
  if rest.isEmpty then none else some (rest.takeWhile Char.isDigit)

lemma firstDigitRun_eq_specFirstRun (l : List Char) :
    firstDigitRun l = specFirstRun l := by
  induction l with
  | nil => rfl
  | cons c cs ih =>
    by_cases hc : c.isDigit
    · simp [firstDigitRun, specFirstRun, hc]
    · simp only [firstDigitRun, hc, if_false, ih]
      simp [specFirstRun, hc]

lemma nbspToSpace_isDigit (c : Char) : (nbspToSpace c).isDigit = c.isDigit := by
  unfold nbspToSpace
  by_cases h : c = nbspChar
  · subst h; simp; decide
  · simp [h]

lemma nbspToSpace_of_digit (c : Char) (h : c.isDigit = true) :
    nbspToSpace c = c := by
  unfold nbspToSpace
  have hne : c ≠ nbspChar := by
    intro he; subst he; exact absurd h (by decide)
  simp [hne]

lemma takeWhile_digit_map_nbsp (l : List Char) :
    (l.map nbspToSpace).takeWhile Char.isDigit = l.takeWhile Char.isDigit := by
  induction l with
  | nil => rfl
  | cons c cs ih =>
    by_cases hc : c.isDigit
    · simp [List.takeWhile_cons, nbspToSpace_isDigit, hc,
        nbspToSpace_of_digit c hc, ih]
    · simp [List.takeWhile_cons, nbspToSpace_isDigit, hc]

lemma firstDigitRun_map_nbsp (l : List Char) :
    firstDigitRun (l.map nbspToSpace) = firstDigitRun l := by
  induction l with
  | nil => rfl
  | cons c cs ih =>
    by_cases hc : c.isDigit
    · simp [firstDigitRun, nbspToSpace_isDigit, hc,
        nbspToSpace_of_digit c hc, takeWhile_digit_map_nbsp]
    · simp [firstDigitRun, nbspToSpace_isDigit, hc, ih]

lemma firstDigitRun_eq_none_of_no_digit (l : List Char)
    (h : ∀ c ∈ l, c.isDigit = false) : firstDigitRun l = none := by
  induction l with
  | nil => rfl
  | cons c cs ih =>
    have hc := h c (by simp)
    simp only [firstDigitRun, hc, Bool.false_eq_true, if_false]
    exact ih (fun d hd => h d (by simp [hd]))

lemma firstDigitRun_isSome_of_digit (l : List Char)
    (h : ∃ c ∈ l, c.isDigit = true) : (firstDigitRun l).isSome = true := by
  induction l with
  | nil => simp at h
  | cons c cs ih =>
    by_cases hc : c.isDigit
    · simp [firstDigitRun, hc]
    · simp only [firstDigitRun, hc, if_false]
      rcases h with ⟨d, hd, hdig⟩
      rcases List.mem_cons.mp hd with he | hm
      · subst he; exact absurd hdig (by simp [hc])
      · exact ih ⟨d, hm, hdig⟩

/-! ### Outcome classifier model (`click_apply_on_card` and collaborators,
main.py lines 98-328)

The live page is observed once per polling round; a `PageState` packs the
boolean DOM signals each observation can show, together with the current
URL.  Driver primitives that can raise (Playwright timeouts) are oracles in
the environment structures; a raise is modelled as `Except.error`.  The
first component of each result is the trace of page-affecting operations
actually performed. -/

/-- Page-affecting operations the classifier can perform. -/
inductive Effect where
  | scrollIntoView
  | clickApply
  | fillAttempt
  | closeClick
  | goBack
  | gotoFallback
  | waitSerp
deriving DecidableEq, Repr

/-- One observation of the page during a polling round. -/
structure PageState where
  toastPresent : Bool
  dialogPresent : Bool
  requiredHintPresent : Bool
  letterInputPresent : Bool
  url : String
  titleContainerPresent : Bool
  questionsDescPresent : Bool
deriving DecidableEq, Repr

/-- `is_cover_letter_required_modal` (main.py lines 163-170): a dialog is
present and it contains both the mandatory-letter hint and the letter
input. -/
def is_cover_letter_required_modal (s : PageState) : Bool :=
  s.dialogPresent && s.requiredHintPresent && s.letterInputPresent

/-- `is_test_page` (main.py lines 98-109): the title container is present
and the description mentions answering questions. -/
def is_test_page (s : PageState) : Bool :=
  s.titleContainerPresent && s.questionsDescPresent

/-- Oracle outcomes for the driver calls inside
`fill_and_submit_cover_letter` (main.py lines 173-223). -/
structure FillEnv where
  dlgVisible : Bool
  inputVisible : Bool
  inputClickOk : Bool
  fillOk : Bool
  submitBtnFound : Bool
  submitClickOk : Bool
  toastAfterSubmit : Bool
  dlgHiddenAfterSubmit : Bool
deriving DecidableEq, Repr

/-- `fill_and_submit_cover_letter`: the whole body sits inside one
`try/except`, so every driver failure becomes `False`; success is the toast
appearing or, failing that, the dialog hiding within its grace period. -/
def fill_and_submit_cover_letter (e : FillEnv) : Bool :=
  if !e.dlgVisible then false
  else if !e.inputVisible then false
  else if !e.inputClickOk then false
  else if !e.fillOk then false
  else if !e.submitBtnFound then false
  else if !e.submitClickOk then false
  else if e.toastAfterSubmit then true
  else if e.dlgHiddenAfterSubmit then true
  else false

/-- Oracle outcomes for the driver calls of the apply flow outside the
fill sub-protocol. -/
structure ApplyEnv where
  fill : FillEnv
  postFillToast : Bool
  closeBtnPresent : Bool
  closeClickRaises : Bool
  goBackRaises : Bool
  gotoRaises : Bool
  serpWaitRaises : Bool
deriving DecidableEq, Repr

/-- `close_response_modal_if_open` (main.py lines 226-233): the close
button, when present, is clicked with no surrounding `try` — a click
timeout propagates; the subsequent wait-for-hidden is absorbed. -/
def close_response_modal_if_open (e : ApplyEnv) :
    List Effect × Except String Unit :=
  if e.closeBtnPresent then
    if e.closeClickRaises then
      ([Effect.closeClick], Except.error "close click timeout")
    else ([Effect.closeClick], Except.ok ())
  else ([], Except.ok ())

/-- `safe_go_back_to_serp` (main.py lines 112-122): `go_back` failures fall
back to a direct `goto` (itself unguarded), then the serp selector wait
(also unguarded) must succeed. -/
def safe_go_back_to_serp (e : ApplyEnv) : List Effect × Except String Unit :=
  if e.goBackRaises then
    if e.gotoRaises then
      ([Effect.goBack, Effect.gotoFallback], Except.error "goto failed")
    else if e.serpWaitRaises then
      ([Effect.goBack, Effect.gotoFallback, Effect.waitSerp],
        Except.error "serp wait timeout")
    else ([Effect.goBack, Effect.gotoFallback, Effect.waitSerp], Except.ok ())
  else if e.serpWaitRaises then
    ([Effect.goBack, Effect.waitSerp], Except.error "serp wait timeout")
  else ([Effect.goBack, Effect.waitSerp], Except.ok ())

/-- Python truthiness of an `Optional[str]`: `None` and `""` are falsy. -/
def pyTruthyStr : Option String → Bool
  | none => false
  | some s => if s = "" then false else true

/-- The polling loop of `click_apply_on_card` (main.py lines 294-328).  The
list holds the page observation of each remaining polling round; an empty
list means the 6-second deadline has elapsed, giving `"unknown"`.  The
three signals are checked in the source's priority order: success toast,
then mandatory-cover-letter modal, then navigation away from the original
URL. -/
def applyPoll (text : Option String) (originalUrl : String) (env : ApplyEnv) :
    List PageState → List Effect × Except String String
  | [] => ([], Except.ok "unknown")
  | s :: rest =>
    if s.toastPresent then ([], Except.ok "sent")
    else if is_cover_letter_required_modal s then
      if pyTruthyStr text then
        if fill_and_submit_cover_letter env.fill then
          if env.postFillToast then ([Effect.fillAttempt], Except.ok "sent")
          else ([Effect.fillAttempt], Except.ok "cover_letter_filled")
        else
          let c := close_response_modal_if_open env
          (Effect.fillAttempt :: c.1,
            match c.2 with
            | Except.ok _ => Except.ok "cover_letter_required"
            | Except.error e => Except.error e)
      else
        let c := close_response_modal_if_open env
        (c.1,
          match c.2 with
          | Except.ok _ => Except.ok "cover_letter_required"
          | Except.error e => Except.error e)
    else if s.url = originalUrl then applyPoll text originalUrl env rest
    else
      let g := safe_go_back_to_serp env
      (g.1,
        match g.2 with
        | Except.ok _ =>
            Except.ok (if is_test_page s then "test_required" else "extra_steps")
        | Except.error e => Except.error e)

/-- The card argument of `click_apply_on_card`: whether an apply button is
present, and whether the two unguarded driver calls on it raise. -/
structure Card where
  hasApplyButton : Bool
  scrollRaises : Bool
  clickRaises : Bool
deriving DecidableEq, Repr

/-- `click_apply_on_card` (main.py lines 272-328): scroll the card into
view (unguarded), bail out with `"no_apply_button"` when the card has no
apply affordance, click the button (unguarded), then poll. -/
def click_apply_on_card (card : Card) (text : Option String)
    (originalUrl : String) (env : ApplyEnv) (states : List PageState) :
    List Effect × Except String String :=
  if card.scrollRaises then ([], Except.error "scroll_into_view timeout")
  else if !card.hasApplyButton then
    ([Effect.scrollIntoView], Except.ok "no_apply_button")
  else if card.clickRaises then
    ([Effect.scrollIntoView], Except.error "apply click timeout")
  else
    let p := applyPoll text originalUrl env states
    (Effect.scrollIntoView :: Effect.clickApply :: p.1, p.2)

/-! ### Listing loader (`scroll_until_all_loaded`, main.py lines 30-53) -/

/-- The `for i in range(1, max_scrolls + 1)` loop.  `counts i` is the card
count observed after the scroll of round `i`; the function returns the
number of iterations actually executed.  Growth resets the stability
counter, a non-growing round increments it, and the loop breaks once the
counter reaches the threshold. -/
def scrollLoopAux (counts : Nat → Nat) (needed : Nat) :
    Nat → Nat → Nat → Nat → Nat
  | 0, _, _, _ => 0
  | fuel + 1, i, prev, stable =>
    let cur := counts i
    if prev < cur then 1 + scrollLoopAux counts needed fuel (i + 1) cur 0
    else if needed ≤ stable + 1 then 1
    else 1 + scrollLoopAux counts needed fuel (i + 1) prev (stable + 1)

/-- `scroll_until_all_loaded`: start from the initial card count with a
zero stability counter and run at most `maxScrolls` rounds.  The model
returns the number of scroll iterations performed; the Python function
returns normally in every case. -/
def scroll_until_all_loaded (counts : Nat → Nat) (initialCount maxScrolls
    neededStable : Nat) : Nat :=
  scrollLoopAux counts neededStable maxScrolls 1 initialCount 0

/-- The running maximum of the initial card count and the counts observed
in rounds `1..k`.  The loop's `prev` variable equals exactly this value at
the start of round `k + 1`, since `prev` is replaced by `cur` precisely
when `cur` exceeds it.  Round `m` is "non-growing" in the loop's sense iff
`counts m ≤ runningMax counts init (m - 1)`. -/
def runningMax (counts : Nat → Nat) (init : Nat) : Nat → Nat
  | 0 => init
  | k + 1 => max (runningMax counts init k) (counts (k + 1))

/-! ### Listing parser (`collect_vacancies_for_apply`, main.py lines 58-86) -/

/-- One rendered serp card as the parser sees it: whether the apply button
locator matches, the raw title text, the title link's `href` attribute
(`None` when absent, defaulted to `""` by the source), and the raw
watcher-count text when the watcher span exists. -/
structure RawCard where
  hasApplyButton : Bool
  titleText : String
  href : Option String
  watchersText : Option String
deriving DecidableEq, Repr

/-- The `Vacancy` dataclass (main.py lines 11-17). -/
structure Vacancy where
  vacancy_id : String
  title : String
  watchers_text : String
  watchers_count : Option Nat
  description : Option String
deriving DecidableEq, Repr

/-- The literal `/vacancy/` of the pattern `r"/vacancy/(\d+)"`. -/
def vacancyPat : List Char := "/vacancy/".data

/-- `re.search(r"/vacancy/(\d+)", href)`: scan left to right for the
literal followed by at least one digit; the captured group is the maximal
digit run after the literal.  A position where the literal matches but no
digit follows is not a match, and scanning continues. -/
def vacancyIdSearch : List Char → Option (List Char)
  | [] => none
  | c :: cs =>
    if vacancyPat.isPrefixOf (c :: cs) then
      let digits := ((c :: cs).drop vacancyPat.length).takeWhile Char.isDigit
      if digits.isEmpty then vacancyIdSearch cs else some digits
    else vacancyIdSearch cs

/-- The placeholder watcher text used when the watcher span is absent. -/
def watchersPlaceholder : String := "Сейчас смотрят —"

/-- The card loop of `collect_vacancies_for_apply`; `n` is `len(result)`
so far.  Cards without the apply button are skipped; cards whose link does
not match the vacancy pattern are skipped; after appending, the loop breaks
once `len(result) >= limit`. -/
def collectAux (limit : Nat) : List RawCard → Nat → List Vacancy
  | [], _ => []
  | c :: cs, n =>
    if !c.hasApplyButton then collectAux limit cs n
    else
      match vacancyIdSearch (c.href.getD "").data with
      | none => collectAux limit cs n
      | some idChars =>
        let wtext :=
          match c.watchersText with
          | some w => w.trim
          | none => watchersPlaceholder
        let v : Vacancy :=
          ⟨⟨idChars⟩, c.titleText.trim, wtext, parse_int wtext, none⟩
        if limit ≤ n + 1 then [v] else v :: collectAux limit cs (n + 1)

/-- `collect_vacancies_for_apply` over the currently rendered cards. -/
def collect_vacancies_for_apply (cards : List RawCard) (limit : Nat) :
    List Vacancy :=
  collectAux limit cards 0

/-! ### Visibility suppression (`hide_vacancy_card`, main.py lines 238-267) -/

/-- Oracle outcomes for the driver calls inside `hide_vacancy_card`. -/
structure HideEnv where
  hideIconPresent : Bool
  scrollRaises : Bool
  hideClickOk : Bool
  menuVisible : Bool
  menuClickOk : Bool
  cardDetaches : Bool
deriving DecidableEq, Repr

/-- `hide_vacancy_card`: absent hide icon gives `False`; the scroll into
view is unguarded; the icon click and the menu wait-and-click each swallow
failures into `False`; the final detach wait is best-effort and ignored. -/
def hide_vacancy_card (e : HideEnv) : Except String Bool :=
  if !e.hideIconPresent then Except.ok false
  else if e.scrollRaises then Except.error "scroll_into_view timeout"
  else if !e.hideClickOk then Except.ok false
  else if !e.menuVisible then Except.ok false
  else if !e.menuClickOk then Except.ok false
  else Except.ok true

/-! ### Cover letter generation (`generate_cover_letter`, main.py
lines 458-475) -/

/-- The f-string template used when no custom template is supplied. -/
def baseCoverTemplate (vacancy_title : String) : String :=
  "Здравствуйте!\n\nМеня заинтересовала вакансия \"" ++ vacancy_title ++
    "\".\n\nГотов обсудить детали и ответить на ваши вопросы.\n\nС уважением"

/-- `generate_cover_letter`: a truthy custom template is returned
verbatim; otherwise the fixed template embedding the vacancy title.  The
description argument is accepted and unused, as in the source. -/
def generate_cover_letter (vacancy_title : String)
    (vacancy_description : Option String) (custom_template : Option String) :
    String :=
  if pyTruthyStr custom_template then custom_template.getD ""
  else baseCoverTemplate vacancy_title

/-! ### Sample inputs used by concrete instantiations -/

/-- A fill environment in which every driver call succeeds and the success
toast appears after submission. -/
def fillEnvAllOk : FillEnv := ⟨true, true, true, true, true, true, true, true⟩

/-- An apply environment in which no unguarded driver call raises. -/
def envQuiet : ApplyEnv := ⟨fillEnvAllOk, true, true, false, false, false, false⟩

/-- A page observation showing both the success toast and the mandatory
cover-letter modal at the original URL. -/
def stToastAndModal : PageState := ⟨true, true, true, true, "u", false, false⟩

/-- A page observation showing only the mandatory cover-letter modal. -/
def stModalOnly : PageState := ⟨false, true, true, true, "u", false, false⟩

/-- A page observation with no signal at all. -/
def stQuiet : PageState := ⟨false, false, false, false, "u", false, false⟩

/-- Two sample serp cards: one applicable with a well-formed link, one
without an apply button. -/
def sampleCards : List RawCard :=
  [⟨true, " Dev ", some "https://hh.ru/vacancy/123456?from=serp", some "Сейчас смотрят 7"⟩,
   ⟨false, "Other", some "https://hh.ru/vacancy/4", none⟩]

/-! ### Supporting lemmas -/

lemma parse_int_via_unnormalized (t : String) :
    parse_int t = (firstDigitRun t.data).map digitsToNat := by
  unfold parse_int
  by_cases h : t = ""
  · subst h; rfl
  · have hd : (normalizeNbsp t).data = t.data.map nbspToSpace := rfl
    simp [h, hd, firstDigitRun_map_nbsp]

lemma mem_takeWhile_digit :
    ∀ (l : List Char) (c : Char), c ∈ l.takeWhile Char.isDigit →
      c.isDigit = true := by
  intro l
  induction l with
  | nil => intro c hc; simp [List.takeWhile] at hc
  | cons a as ih =>
    intro c hc
    by_cases ha : a.isDigit
    · rw [List.takeWhile_cons, if_pos ha] at hc
      rcases List.mem_cons.mp hc with he | hm
      · subst he; exact ha
      · exact ih c hm
    · rw [List.takeWhile_cons, if_neg ha] at hc
      simp at hc

lemma vacancyIdSearch_digits :
    ∀ (l d : List Char), vacancyIdSearch l = some d →
      d ≠ [] ∧ ∀ c ∈ d, c.isDigit = true := by
  intro l
  induction l with
  | nil => intro d h; simp [vacancyIdSearch] at h
  | cons a as ih =>
    intro d h
    unfold vacancyIdSearch at h
    by_cases hp : vacancyPat.isPrefixOf (a :: as)
    · rw [if_pos hp] at h
      by_cases he : (((a :: as).drop vacancyPat.length).takeWhile Char.isDigit).isEmpty
      · rw [if_pos he] at h
        exact ih d h
      · rw [if_neg he] at h
        have hd : ((a :: as).drop vacancyPat.length).takeWhile Char.isDigit = d :=
          Option.some.inj h
        constructor
        · intro hnil
          rw [hd, hnil] at he
          exact he rfl
        · intro c hc
          exact mem_takeWhile_digit _ c (hd ▸ hc)
    · rw [if_neg hp] at h
      exact ih d h

lemma collectAux_length (limit : Nat) :
    ∀ (cs : List RawCard) (n : Nat), n < limit →
      (collectAux limit cs n).length ≤ limit - n := by
  intro cs
  induction cs with
  | nil => intro n _; simp [collectAux]
  | cons c cs ih =>
    intro n hn
    unfold collectAux
    by_cases hb : c.hasApplyButton
    · simp only [hb, Bool.not_true, Bool.false_eq_true, if_false]
      cases hid : vacancyIdSearch (c.href.getD "").data with
      | none => exact ih n hn
      | some idChars =>
        simp only
        by_cases hlim : limit ≤ n + 1
        · rw [if_pos hlim]
          simp
          omega
        · rw [if_neg hlim]
          have := ih (n + 1) (by omega)
          simp only [List.length_cons]
          omega
    · simp only [hb, Bool.not_false, if_true]
      exact ih n hn

lemma collectAux_mem (limit : Nat) :
    ∀ (cs : List RawCard) (n : Nat) (v : Vacancy), v ∈ collectAux limit cs n →
      ∃ c ∈ cs, c.hasApplyButton = true ∧
        vacancyIdSearch (c.href.getD "").data = some v.vacancy_id.data := by
  intro cs
  induction cs with
  | nil => intro n v hv; simp [collectAux] at hv
  | cons c cs ih =>
    intro n v hv
    unfold collectAux at hv
    by_cases hb : c.hasApplyButton
    · simp only [hb, Bool.not_true, Bool.false_eq_true, if_false] at hv
      cases hid : vacancyIdSearch (c.href.getD "").data with
      | none =>
        rw [hid] at hv
        rcases ih n v hv with ⟨c0, hc0, hprop⟩
        exact ⟨c0, List.mem_cons_of_mem c hc0, hprop⟩
      | some idChars =>
        rw [hid] at hv
        simp only at hv
        by_cases hlim : limit ≤ n + 1
        · rw [if_pos hlim] at hv
          have hveq := List.mem_singleton.mp hv
          subst hveq
          exact ⟨c, List.mem_cons_self c cs, hb, hid⟩
        · rw [if_neg hlim] at hv
          rcases List.mem_cons.mp hv with he | hm
          · subst he
            exact ⟨c, List.mem_cons_self c cs, hb, hid⟩
          · rcases ih (n + 1) v hm with ⟨c0, hc0, hprop⟩
            exact ⟨c0, List.mem_cons_of_mem c hc0, hprop⟩
    · simp only [hb, Bool.not_false, if_true] at hv
      rcases ih n v hv with ⟨c0, hc0, hprop⟩
      exact ⟨c0, List.mem_cons_of_mem c hc0, hprop⟩

lemma scrollLoopAux_le_fuel (counts : Nat → Nat) (needed : Nat) :
    ∀ (fuel i prev stable : Nat),
      scrollLoopAux counts needed fuel i prev stable ≤ fuel := by
  intro fuel
  induction fuel with
  | zero => intro i prev stable; simp [scrollLoopAux]
  | succ f ih =>
    intro i prev stable
    unfold scrollLoopAux
    by_cases hg : prev < counts i
    · simp only [hg, if_true]
      have := ih (i + 1) (counts i) 0
      omega
    · simp only [hg, if_false]
      by_cases hs : needed ≤ stable + 1
      · rw [if_pos hs]; omega
      · rw [if_neg hs]
        have := ih (i + 1) prev (stable + 1)
        omega

lemma scrollLoopAux_stable_eq (counts : Nat → Nat) (needed : Nat) :
    ∀ (fuel i prev stable : Nat), (∀ k, counts k ≤ prev) → stable < needed →
      scrollLoopAux counts needed fuel i prev stable =
        min fuel (needed - stable) := by
  intro fuel
  induction fuel with
  | zero => intro i prev stable _ _; simp [scrollLoopAux]
  | succ f ih =>
    intro i prev stable hle hst
    unfold scrollLoopAux
    have hng : ¬ prev < counts i := by have := hle i; omega
    simp only [hng, if_false]
    by_cases hs : needed ≤ stable + 1
    · rw [if_pos hs]; omega
    · rw [if_neg hs]
      have := ih (i + 1) prev (stable + 1) hle (by omega)
      omega

lemma scrollLoopAux_early_stop (counts : Nat → Nat) (needed init j : Nat)
    (hneed : 1 ≤ needed) (hj : 1 ≤ j)
    (hwin : ∀ m, j ≤ m → m < j + needed →
      counts m ≤ runningMax counts init (m - 1)) :
    ∀ (fuel i prev stable : Nat), 1 ≤ i →
      prev = runningMax counts init (i - 1) →
      (i ≤ j ∨ (j < i ∧ i ≤ j + needed - 1 ∧ i - j ≤ stable)) →
      scrollLoopAux counts needed fuel i prev stable ≤ j + needed - i := by
  intro fuel
  induction fuel with
  | zero => intro i prev stable _ _ _; simp [scrollLoopAux]
  | succ f ih =>
    intro i prev stable hi hprev hcase
    obtain ⟨k, rfl⟩ : ∃ k, i = k + 1 := ⟨i - 1, by omega⟩
    simp only [Nat.add_sub_cancel] at hprev
    unfold scrollLoopAux
    rcases hcase with hle | ⟨hgt, hub, hst⟩
    · by_cases hij : k + 1 = j
      · have hng : counts (k + 1) ≤ prev := by
          rw [hprev]
          have hw := hwin (k + 1) (by omega) (by omega)
          simpa using hw
        have hg : ¬ prev < counts (k + 1) := by omega
        simp only [hg, if_false]
        by_cases hs : needed ≤ stable + 1
        · rw [if_pos hs]
          omega
        · rw [if_neg hs]
          have hinv : prev = runningMax counts init (k + 1) := by
            show prev = max (runningMax counts init k) (counts (k + 1))
            omega
          have hrec := ih (k + 1 + 1) prev (stable + 1) (by omega) hinv
            (Or.inr ⟨by omega, by omega, by omega⟩)
          omega
      · have hlt : k + 1 < j := by omega
        by_cases hg : prev < counts (k + 1)
        · simp only [hg, if_true]
          have hinv : counts (k + 1) = runningMax counts init (k + 1) := by
            show counts (k + 1) =
              max (runningMax counts init k) (counts (k + 1))
            omega
          have hrec := ih (k + 1 + 1) (counts (k + 1)) 0 (by omega) hinv
            (Or.inl (by omega))
          omega
        · simp only [hg, if_false]
          by_cases hs : needed ≤ stable + 1
          · rw [if_pos hs]
            omega
          · rw [if_neg hs]
            have hinv : prev = runningMax counts init (k + 1) := by
              show prev = max (runningMax counts init k) (counts (k + 1))
              omega
            have hrec := ih (k + 1 + 1) prev (stable + 1) (by omega) hinv
              (Or.inl (by omega))
            omega
    · have hng : counts (k + 1) ≤ prev := by
        rw [hprev]
        have hw := hwin (k + 1) (by omega) (by omega)
        simpa using hw
      have hg : ¬ prev < counts (k + 1) := by omega
      simp only [hg, if_false]
      by_cases hs : needed ≤ stable + 1
      · rw [if_pos hs]
        omega
      · rw [if_neg hs]
        have hinv : prev = runningMax counts init (k + 1) := by
          show prev = max (runningMax counts init k) (counts (k + 1))
          omega
        have hrec := ih (k + 1 + 1) prev (stable + 1) (by omega) hinv
          (Or.inr ⟨by omega, by omega, by omega⟩)
        omega

lemma applyPoll_skip_quiet (text : Option String) (url : String)
    (env : ApplyEnv) (quiet : List PageState)
    (hq : ∀ q ∈ quiet, q.toastPresent = false ∧
        is_cover_letter_required_modal q = false ∧ q.url = url) :
    ∀ tail, applyPoll text url env (quiet ++ tail) =
      applyPoll text url env tail := by
  induction quiet with
  | nil => intro tail; rfl
  | cons q qs ih =>
    intro tail
    have hqh := hq q (List.mem_cons_self q qs)
    have hqt : ∀ p ∈ qs, p.toastPresent = false ∧
        is_cover_letter_required_modal p = false ∧ p.url = url :=
      fun p hp => hq p (List.mem_cons_of_mem q hp)
    rw [List.cons_append]
    rw [show applyPoll text url env (q :: (qs ++ tail)) =
        applyPoll text url env (qs ++ tail) by
      simp only [applyPoll]
      simp [hqh.1, hqh.2.1, hqh.2.2]]
    exact ih hqt tail

lemma applyPoll_ok (text : Option String) (url : String) (env : ApplyEnv)
    (hclose : env.closeClickRaises = false) (hgoto : env.gotoRaises = false)
    (hserp : env.serpWaitRaises = false) :
    ∀ states, ∃ r, (applyPoll text url env states).2 = Except.ok r := by
  intro states
  induction states with
  | nil => exact ⟨"unknown", rfl⟩
  | cons s rest ih =>
    unfold applyPoll
    by_cases h1 : s.toastPresent
    · exact ⟨"sent", by simp [h1]⟩
    · simp only [h1, Bool.false_eq_true, if_false]
      by_cases h2 : is_cover_letter_required_modal s
      · simp only [h2, if_true]
        by_cases h3 : pyTruthyStr text
        · simp only [h3, if_true]
          by_cases h4 : fill_and_submit_cover_letter env.fill
          · simp only [h4, if_true]
            by_cases h5 : env.postFillToast
            · exact ⟨"sent", by simp [h5]⟩
            · exact ⟨"cover_letter_filled", by simp [h5]⟩
          · simp only [h4, Bool.false_eq_true, if_false]
            refine ⟨"cover_letter_required", ?_⟩
            simp [close_response_modal_if_open, hclose]
            by_cases h6 : env.closeBtnPresent <;> simp [h6]
        · simp only [h3, Bool.false_eq_true, if_false]
          refine ⟨"cover_letter_required", ?_⟩
          simp [close_response_modal_if_open, hclose]
          by_cases h6 : env.closeBtnPresent <;> simp [h6]
      · simp only [h2, Bool.false_eq_true, if_false]
        by_cases h7 : s.url = url
        · simp only [h7, if_true]
          exact ih
        · simp only [h7, if_false]
          refine ⟨if is_test_page s then "test_required" else "extra_steps", ?_⟩
          simp [safe_go_back_to_serp, hgoto, hserp]
          by_cases h8 : env.goBackRaises <;> simp [h8]

lemma baseCoverTemplate_ne_empty (t : String) : baseCoverTemplate t ≠ "" := by
  intro h
  exact List.noConfusion (congrArg String.data h)

lemma hide_vacancy_card_eq_and (e : HideEnv)
    (hi : e.hideIconPresent = true) (hs : e.scrollRaises = false) :
    hide_vacancy_card e =
      Except.ok (e.hideClickOk && e.menuVisible && e.menuClickOk) := by
  unfold hide_vacancy_card
  by_cases h1 : e.hideClickOk <;> by_cases h2 : e.menuVisible <;>
    by_cases h3 : e.menuClickOk <;> simp [hi, hs, h1, h2, h3]

lemma generate_cover_letter_ne_empty (t : String) (d c : Option String) :
    generate_cover_letter t d c ≠ "" := by
  unfold generate_cover_letter
  cases c with
  | none => simp [pyTruthyStr, baseCoverTemplate_ne_empty]
  | some s =>
    by_cases hs : s = ""
    · simp [pyTruthyStr, hs, baseCoverTemplate_ne_empty]
    · simp [pyTruthyStr, hs]

/-! ### Claim theorems -/

/-- Claim C1: whenever a polling round of `click_apply_on_card` observes a
page on which the success toast and the mandatory-cover-letter modal are
simultaneously present, the classifier returns `"sent"` and not
`"cover_letter_required"` or `"cover_letter_filled"`, because the toast
check precedes the modal check in every round; earlier rounds observing no
signal leave the loop running. -/
theorem click_apply_sent_priority_over_modal (card : Card)
    (text : Option String) (url : String) (env : ApplyEnv)
    (quiet : List PageState) (s : PageState) (rest : List PageState)
    (hscroll : card.scrollRaises = false)
    (hbtn : card.hasApplyButton = true)
    (hclick : card.clickRaises = false)
    (hquiet : ∀ q ∈ quiet, q.toastPresent = false ∧
        is_cover_letter_required_modal q = false ∧ q.url = url)
    (htoast : s.toastPresent = true)
    (hmodal : is_cover_letter_required_modal s = true) :
    (click_apply_on_card card text url env (quiet ++ s :: rest)).2 =
      Except.ok "sent" := by
  unfold click_apply_on_card
  simp only [hscroll, Bool.false_eq_true, if_false, hbtn, Bool.not_true,
    hclick]
  rw [applyPoll_skip_quiet text url env quiet hquiet (s :: rest)]
  simp [applyPoll, htoast]

/-- Witness for C1: one quiet round, then a round showing both the toast
and the modal. -/
theorem click_apply_sent_priority_witness :
    (click_apply_on_card ⟨true, false, false⟩ none "u" envQuiet
        [stQuiet, stToastAndModal]).2 = Except.ok "sent" :=
  click_apply_sent_priority_over_modal ⟨true, false, false⟩ none "u" envQuiet
    [stQuiet] stToastAndModal [] rfl rfl rfl
    (by
      intro q hq
      rw [List.mem_singleton] at hq
      subst hq
      exact ⟨rfl, rfl, rfl⟩)
    rfl rfl

/-- Counterexample to C2 as stated: `card.scroll_into_view_if_needed` is
not wrapped in any `try`, so its timeout propagates out of
`click_apply_on_card` as an exception instead of becoming a failure
value. -/
theorem click_apply_scroll_exception_propagates :
    (click_apply_on_card ⟨true, true, false⟩ none "u" envQuiet []).2 =
      Except.error "scroll_into_view timeout" := rfl

/-- Claim C2 (amended): the interactions inside
`fill_and_submit_cover_letter`, `hide_vacancy_card`'s clicks and the
best-effort waits are caught locally, so when the unguarded calls — the
card scroll, the apply click, the close-button click and the navigation
and serp wait of `safe_go_back_to_serp` — do not raise, no exception
escapes `click_apply_on_card`: it returns an outcome string. -/
theorem click_apply_exceptions_contained (card : Card) (text : Option String)
    (url : String) (env : ApplyEnv) (states : List PageState)
    (hscroll : card.scrollRaises = false) (hclick : card.clickRaises = false)
    (hclose : env.closeClickRaises = false) (hgoto : env.gotoRaises = false)
    (hserp : env.serpWaitRaises = false) :
    ∃ r, (click_apply_on_card card text url env states).2 = Except.ok r := by
  unfold click_apply_on_card
  by_cases hb : card.hasApplyButton
  · simp only [hscroll, Bool.false_eq_true, if_false, hb, Bool.not_true,
      hclick]
    exact applyPoll_ok text url env hclose hgoto hserp states
  · exact ⟨"no_apply_button", by simp [hscroll, hb]⟩

/-- Witness for C2 (amended) on a modal round in a non-raising
environment. -/
theorem click_apply_exceptions_contained_witness :
    ∃ r, (click_apply_on_card ⟨true, false, false⟩ none "u" envQuiet
        [stModalOnly]).2 = Except.ok r :=
  click_apply_exceptions_contained ⟨true, false, false⟩ none "u" envQuiet
    [stModalOnly] rfl rfl rfl rfl rfl

/-- Counterexample to C3 as stated: on a card with no apply affordance the
call still scrolls the card into view before checking the affordance, so
the page state is not left unchanged. -/
theorem click_apply_no_button_scroll_effect :
    (click_apply_on_card ⟨false, false, false⟩ none "u" envQuiet []).1 ≠ [] ∧
    (click_apply_on_card ⟨false, false, false⟩ none "u" envQuiet []).1 =
      [Effect.scrollIntoView] := ⟨by decide, rfl⟩

/-- Claim C3 (amended): on a card with no apply affordance, and when the
scroll into view does not raise, `click_apply_on_card` returns
`"no_apply_button"` immediately, issuing no click and no navigation — the
only side effect is scrolling the card into view. -/
theorem click_apply_no_button_result (card : Card) (text : Option String)
    (url : String) (env : ApplyEnv) (states : List PageState)
    (hbtn : card.hasApplyButton = false)
    (hscroll : card.scrollRaises = false) :
    click_apply_on_card card text url env states =
      ([Effect.scrollIntoView], Except.ok "no_apply_button") := by
  simp [click_apply_on_card, hbtn, hscroll]

/-- Witness for C3 (amended). -/
theorem click_apply_no_button_result_witness :
    click_apply_on_card ⟨false, false, false⟩ (some "x") "v" envQuiet [] =
      ([Effect.scrollIntoView], Except.ok "no_apply_button") :=
  click_apply_no_button_result ⟨false, false, false⟩ (some "x") "v" envQuiet
    [] rfl rfl

/-- Claim C4: when a polling round detects the mandatory-cover-letter
modal (and no toast), a truthy cover letter leads to a fill attempt: on
success the toast is re-checked once, giving `"sent"` when present and
`"cover_letter_filled"` otherwise; on failure the modal is dismissed and
`"cover_letter_required"` is returned; without cover-letter text the modal
is dismissed and `"cover_letter_required"` is returned. -/
theorem click_apply_modal_branch_outcomes (card : Card)
    (text : Option String) (url : String) (env : ApplyEnv) (s : PageState)
    (rest : List PageState)
    (hscroll : card.scrollRaises = false) (hbtn : card.hasApplyButton = true)
    (hclick : card.clickRaises = false) (htoast : s.toastPresent = false)
    (hmodal : is_cover_letter_required_modal s = true)
    (hclose : env.closeClickRaises = false) :
    (pyTruthyStr text = true → fill_and_submit_cover_letter env.fill = true →
        env.postFillToast = true →
        (click_apply_on_card card text url env (s :: rest)).2 =
          Except.ok "sent")
  ∧ (pyTruthyStr text = true → fill_and_submit_cover_letter env.fill = true →
        env.postFillToast = false →
        (click_apply_on_card card text url env (s :: rest)).2 =
          Except.ok "cover_letter_filled")
  ∧ (pyTruthyStr text = true → fill_and_submit_cover_letter env.fill = false →
        (click_apply_on_card card text url env (s :: rest)).2 =
            Except.ok "cover_letter_required" ∧
          (env.closeBtnPresent = true →
            Effect.closeClick ∈
              (click_apply_on_card card text url env (s :: rest)).1))
  ∧ (pyTruthyStr text = false →
        (click_apply_on_card card text url env (s :: rest)).2 =
            Except.ok "cover_letter_required" ∧
          (env.closeBtnPresent = true →
            Effect.closeClick ∈
              (click_apply_on_card card text url env (s :: rest)).1)) := by
  refine ⟨?_, ?_, ?_, ?_⟩
  · intro h1 h2 h3
    simp [click_apply_on_card, applyPoll, hscroll, hbtn, hclick, htoast,
      hmodal, h1, h2, h3]
  · intro h1 h2 h3
    simp [click_apply_on_card, applyPoll, hscroll, hbtn, hclick, htoast,
      hmodal, h1, h2, h3]
  · intro h1 h2
    by_cases h6 : env.closeBtnPresent <;>
      simp [click_apply_on_card, applyPoll, hscroll, hbtn, hclick, htoast,
        hmodal, h1, h2, close_response_modal_if_open, hclose, h6]
  · intro h1
    by_cases h6 : env.closeBtnPresent <;>
      simp [click_apply_on_card, applyPoll, hscroll, hbtn, hclick, htoast,
        hmodal, h1, close_response_modal_if_open, hclose, h6]

/-- Witness for C4: supplied text, successful fill, toast reconfirmed. -/
theorem click_apply_modal_branch_witness :
    (click_apply_on_card ⟨true, false, false⟩ (some "hello") "u" envQuiet
        [stModalOnly]).2 = Except.ok "sent" :=
  (click_apply_modal_branch_outcomes ⟨true, false, false⟩ (some "hello") "u"
      envQuiet stModalOnly [] rfl rfl rfl rfl rfl rfl).1 rfl rfl rfl

/-- Claim C5: `_parse_int` returns the value of the first decimal digit
run of the text after non-breaking spaces are replaced by spaces; it is
`None` on empty or digit-free input; and on the scenario text with a
non-breaking space inside the number it returns 1, not 1234. -/
theorem parse_int_first_digit_run :
    (∀ t : String, parse_int t =
        (specFirstRun (normalizeNbsp t).data).map digitsToNat)
  ∧ (∀ t : String, (∀ c ∈ t.data, c.isDigit = false) → parse_int t = none)
  ∧ (∀ t : String, (∃ c ∈ t.data, c.isDigit = true) →
        (parse_int t).isSome = true)
  ∧ parse_int "Сейчас смотрят 1\u00A0234" = some 1
  ∧ parse_int "" = none := by
  refine ⟨?_, ?_, ?_, by decide, rfl⟩
  · intro t
    by_cases h : t = ""
    · subst h; rfl
    · unfold parse_int
      rw [if_neg h, firstDigitRun_eq_specFirstRun]
  · intro t h
    rw [parse_int_via_unnormalized]
    rw [firstDigitRun_eq_none_of_no_digit t.data h]
    rfl
  · intro t h
    rw [parse_int_via_unnormalized]
    rcases Option.isSome_iff_exists.mp
      (firstDigitRun_isSome_of_digit t.data h) with ⟨d, hd⟩
    simp [hd]

/-- Witness for C5 on the placeholder text (no digit) and a digit-bearing
text. -/
theorem parse_int_first_digit_run_witness :
    parse_int "Сейчас смотрят —" = none ∧
    (parse_int "Сейчас смотрят 17 человек").isSome = true :=
  ⟨parse_int_first_digit_run.2.1 "Сейчас смотрят —" (by decide),
   parse_int_first_digit_run.2.2.1 "Сейчас смотрят 17 человек" (by decide)⟩

/-- Claim C9: the non-breaking-space normalization inside `_parse_int`
never changes the result — the first digit run of the normalized text is
the first digit run of the original text, so `_parse_int t` equals the
value of the first digit run of the un-normalized `t` (or `None` when `t`
has no digit). -/
theorem parse_int_normalization_identity :
    ∀ t : String, firstDigitRun (normalizeNbsp t).data = firstDigitRun t.data
      ∧ parse_int t = (firstDigitRun t.data).map digitsToNat := by
  intro t
  exact ⟨firstDigitRun_map_nbsp t.data, parse_int_via_unnormalized t⟩

/-- Claim C6: the listing parser returns at most `limit` items for any
positive `limit`; every returned item stems from a card exposing the apply
affordance; and every identifier is the non-empty digit string captured by
the `/vacancy/<digits>` pattern on the card's link — non-matching cards
are excluded entirely. -/
theorem collect_vacancies_limit_and_ids (cards : List RawCard) (limit : Nat)
    (hl : 1 ≤ limit) :
    (collect_vacancies_for_apply cards limit).length ≤ limit
  ∧ ∀ v ∈ collect_vacancies_for_apply cards limit,
      ∃ c ∈ cards, c.hasApplyButton = true
        ∧ vacancyIdSearch (c.href.getD "").data = some v.vacancy_id.data
        ∧ v.vacancy_id.data ≠ []
        ∧ ∀ ch ∈ v.vacancy_id.data, ch.isDigit = true := by
  constructor
  · have h := collectAux_length limit cards 0 (by omega)
    unfold collect_vacancies_for_apply
    omega
  · intro v hv
    rcases collectAux_mem limit cards 0 v hv with ⟨c, hc, hb, hid⟩
    have hdig := vacancyIdSearch_digits _ _ hid
    exact ⟨c, hc, hb, hid, hdig.1, hdig.2⟩

/-- Witness for C6 on two sample cards with limit 1. -/
theorem collect_vacancies_limit_and_ids_witness :
    (collect_vacancies_for_apply sampleCards 1).length ≤ 1 ∧
    ∀ v ∈ collect_vacancies_for_apply sampleCards 1,
      ∃ c ∈ sampleCards, c.hasApplyButton = true
        ∧ vacancyIdSearch (c.href.getD "").data = some v.vacancy_id.data
        ∧ v.vacancy_id.data ≠ []
        ∧ ∀ ch ∈ v.vacancy_id.data, ch.isDigit = true :=
  collect_vacancies_limit_and_ids sampleCards 1 (by decide)

/-- Claim C7: the listing loader performs at most `max_scrolls` scroll
iterations for every page and tuning, terminating normally (the model is a
total function); and it stops early as soon as the observed count has been
non-growing for `stable_rounds_needed` consecutive rounds: whenever rounds
`j .. j + needed - 1` each fail to exceed the running maximum of the
counts observed before them — which is exactly the loop's `prev` — the
loop executes at most `j + needed - 1` iterations (and never more than the
cap).  In particular a never-growing count stops the loop after exactly
`min max_scrolls stable_rounds_needed` rounds. -/
theorem scroll_until_all_loaded_terminates :
    (∀ (counts : Nat → Nat) (init maxS needed : Nat),
        scroll_until_all_loaded counts init maxS needed ≤ maxS)
  ∧ (∀ (counts : Nat → Nat) (init maxS needed j : Nat), 1 ≤ needed →
        1 ≤ j →
        (∀ m, j ≤ m → m < j + needed →
          counts m ≤ runningMax counts init (m - 1)) →
        scroll_until_all_loaded counts init maxS needed ≤
          min maxS (j + needed - 1))
  ∧ (∀ (counts : Nat → Nat) (init maxS needed : Nat), 1 ≤ needed →
        (∀ k, counts k ≤ init) →
        scroll_until_all_loaded counts init maxS needed = min maxS needed) := by
  refine ⟨?_, ?_, ?_⟩
  · intro counts init maxS needed
    exact scrollLoopAux_le_fuel counts needed maxS 1 init 0
  · intro counts init maxS needed j hneed hj hwin
    have h1 := scrollLoopAux_le_fuel counts needed maxS 1 init 0
    have h2 := scrollLoopAux_early_stop counts needed init j hneed hj hwin
      maxS 1 init 0 (by omega) rfl (Or.inl hj)
    unfold scroll_until_all_loaded
    omega
  · intro counts init maxS needed hn hle
    have h := scrollLoopAux_stable_eq counts needed maxS 1 init 0 hle
      (by omega)
    simpa [scroll_until_all_loaded] using h

/-- Witness for C7: a run that grows at round 1 and then stabilizes (early
stop within the window bound), plus a constant run for the exact stop
count. -/
theorem scroll_until_all_loaded_terminates_witness :
    scroll_until_all_loaded (fun _ => 8) 5 50 3 ≤ 50 ∧
    scroll_until_all_loaded (fun _ => 8) 5 50 3 ≤ min 50 4 ∧
    scroll_until_all_loaded (fun _ => 5) 5 50 3 = min 50 3 :=
  ⟨scroll_until_all_loaded_terminates.1 (fun _ => 8) 5 50 3,
   scroll_until_all_loaded_terminates.2.1 (fun _ => 8) 5 50 3 2 (by decide)
     (by decide)
     (by
       intro m hm _
       obtain ⟨k, rfl⟩ : ∃ k, m = k + 2 := ⟨m - 2, by omega⟩
       show (8 : Nat) ≤ runningMax (fun _ => 8) 5 (k + 1)
       simp [runningMax]),
   scroll_until_all_loaded_terminates.2.2 (fun _ => 5) 5 50 3 (by decide)
     (fun _ => Nat.le_refl 5)⟩

/-- Claim C8: `hide_vacancy_card` returns `True` only when both the hide
click and the confirmation-menu click succeeded; an absent hide affordance
yields `False`; a failed click or menu wait yields `False` rather than an
exception; and whether the card detaches afterwards never changes the
result. -/
theorem hide_vacancy_card_contract (e : HideEnv) :
    (e.hideIconPresent = false → hide_vacancy_card e = Except.ok false)
  ∧ (hide_vacancy_card e = Except.ok true →
        e.hideClickOk = true ∧ e.menuVisible = true ∧ e.menuClickOk = true)
  ∧ (e.hideIconPresent = true → e.scrollRaises = false →
        (e.hideClickOk = false ∨ e.menuVisible = false ∨
          e.menuClickOk = false) →
        hide_vacancy_card e = Except.ok false)
  ∧ (∀ b, hide_vacancy_card { e with cardDetaches := b } =
        hide_vacancy_card e) := by
  refine ⟨?_, ?_, ?_, ?_⟩
  · intro h
    simp [hide_vacancy_card, h]
  · intro h
    by_cases hi : e.hideIconPresent
    · by_cases hs : e.scrollRaises
      · simp [hide_vacancy_card, hi, hs] at h
      · rw [hide_vacancy_card_eq_and e hi (by simpa using hs)] at h
        simp only [Except.ok.injEq, Bool.and_eq_true] at h
        exact ⟨h.1.1, h.1.2, h.2⟩
    · simp only [Bool.not_eq_true] at hi
      rw [(by simp [hide_vacancy_card, hi] :
        hide_vacancy_card e = Except.ok false)] at h
      simp at h
  · intro hi hs hor
    rw [hide_vacancy_card_eq_and e hi hs]
    rcases hor with h | h | h <;> simp [h]
  · intro b
    obtain ⟨i, sr, hc, mv, mc, cd⟩ := e
    rfl

/-- Witness for C8: absent hide icon, and a failed hide click. -/
theorem hide_vacancy_card_contract_witness :
    hide_vacancy_card ⟨false, false, true, true, true, true⟩ =
        Except.ok false ∧
    hide_vacancy_card ⟨true, false, false, true, true, true⟩ =
        Except.ok false :=
  ⟨(hide_vacancy_card_contract ⟨false, false, true, true, true, true⟩).1 rfl,
   (hide_vacancy_card_contract ⟨true, false, false, true, true, true⟩).2.2.1
     rfl rfl (Or.inl rfl)⟩

/-- Claim C10: `generate_cover_letter` is non-empty for every input, so
the orchestrator always hands `click_apply_on_card` a truthy cover letter
and the no-text modal branch is unreachable from it: on a modal round the
classifier always attempts the fill. -/
theorem generate_cover_letter_nonempty_fill_path :
    (∀ (t : String) (d c : Option String), generate_cover_letter t d c ≠ "")
  ∧ (∀ (card : Card) (url : String) (env : ApplyEnv) (s : PageState)
        (rest : List PageState) (t : String) (d c : Option String),
      card.scrollRaises = false → card.hasApplyButton = true →
      card.clickRaises = false → s.toastPresent = false →
      is_cover_letter_required_modal s = true →
      Effect.fillAttempt ∈
        (click_apply_on_card card (some (generate_cover_letter t d c)) url
          env (s :: rest)).1) := by
  constructor
  · exact generate_cover_letter_ne_empty
  · intro card url env s rest t d c hscroll hbtn hclick htoast hmodal
    have htr : pyTruthyStr (some (generate_cover_letter t d c)) = true := by
      simp [pyTruthyStr, generate_cover_letter_ne_empty t d c]
    by_cases hf : fill_and_submit_cover_letter env.fill <;>
      by_cases hp : env.postFillToast <;>
      simp [click_apply_on_card, applyPoll, hscroll, hbtn, hclick, htoast,
        hmodal, htr, hf, hp]

/-- Witness for C10 on a generated letter and a concrete modal round. -/
theorem generate_cover_letter_fill_path_witness :
    generate_cover_letter "Dev" none none ≠ "" ∧
    Effect.fillAttempt ∈
      (click_apply_on_card ⟨true, false, false⟩
        (some (generate_cover_letter "Dev" none none)) "u" envQuiet
        [stModalOnly]).1 :=
  ⟨generate_cover_letter_nonempty_fill_path.1 "Dev" none none,
   generate_cover_letter_nonempty_fill_path.2 ⟨true, false, false⟩ "u"
     envQuiet stModalOnly [] "Dev" none none rfl rfl rfl rfl rfl⟩
